import Mathlib

/-!
Shallow embedding of the real-time audio relay in
src/twilio_realtime/routes/deepgram_demo.py.

The relay bridges a Twilio media-stream websocket with the Deepgram agent
websocket.  The mutable `connection_state` dictionary of `handle_media_stream`
becomes the structure `ConnState`; each of the event-handling loops becomes a
pure step function from a received message to a new state plus the list of
messages emitted on the two sockets.  Python string truthiness (used by the
source in several guards) is modelled explicitly.
-/

/-- Python truthiness of an optional string: `None` and the empty string are falsy. -/
def truthyStr : Option String → Bool
  | none => false
  | some s => s != ""

/-- Python `a or b` on optional strings: yields `b` when `a` is falsy. -/
def pyOr (a b : Option String) : Option String :=
  if truthyStr a then a else b

/-- Python string rendering of an optional value interpolated into an f-string:
`None` renders as the text "None". -/
def pyShowOpt : Option String → String
  | none => "None"
  | some s => s

/-- Payload of a Twilio start event: the fields of `data["start"]` that the relay
reads (`streamSid`, and `callSid` which may be absent). -/
structure StartEvent where
  streamSid : String
  callSid : Option String
deriving DecidableEq

/-- The JSON value stored into `connection_state["start_data"]` by
`initialize_connection_state`: either a start event or some other JSON object. -/
inductive StartData
  | startEv (e : StartEvent)
  | nonStart
deriving DecidableEq

/-- The `connection_state` dictionary built at the top of `handle_media_stream`
(deepgram_demo.py lines 83-97), minus the task handles and the websocket
handles, which are not data.  `audio_queue` is the ordered log of frames put on
the asyncio queue. -/
structure ConnState where
  call_sid : Option String
  caller_phone : String
  stream_sid : Option String
  latest_media_timestamp : Int
  mark_queue : List String
  audio_queue : List (List Nat)
  connection_active : Bool
  start_data : Option StartData
  speech_started : Bool
  last_assistant_item : Option String
  response_start_timestamp_twilio : Option Int
deriving DecidableEq

/-- The initial `connection_state` (deepgram_demo.py lines 83-97). -/
def init_connection_state : ConnState :=
  { call_sid := none
    caller_phone := "Unknown"
    stream_sid := none
    latest_media_timestamp := 0
    mark_queue := []
    audio_queue := []
    connection_active := true
    start_data := none
    speech_started := false
    last_assistant_item := none
    response_start_timestamp_twilio := none }

/-- `initialize_connection_state` (deepgram_demo.py lines 164-195).
`received = none` models the exception path (5-second timeout on the first
receive, JSON decode failure, or a missing key), which logs the error and sets
`caller_phone` to "Unknown Caller" and `start_data` to `None`.  `p` models the
phone lookup in the `connections` store. -/
def initialize_connection_state (p : String → Option String) (received : Option StartData)
    (s : ConnState) : ConnState :=
  match received with
  | none =>
      { s with caller_phone := "Unknown Caller", start_data := none }
  | some (StartData.startEv e) =>
      let cs := pyOr e.callSid (some e.streamSid)
      let phone :=
        match cs with
        | some c =>
            match p c with
            | some ph => ph
            | none => s.caller_phone
        | none => s.caller_phone
      { s with call_sid := cs, caller_phone := phone, start_data := some (StartData.startEv e) }
  | some StartData.nonStart =>
      { s with start_data := some StartData.nonStart }

/-- `handle_start_event` (deepgram_demo.py lines 463-487): records the stream
sid, fills in `call_sid`/`caller_phone` if still unset, resets the media
timestamp, and clears `last_assistant_item` and `response_start_timestamp_twilio`. -/
def handle_start_event (p : String → Option String) (e : StartEvent) (s : ConnState) : ConnState :=
  let s1 := { s with stream_sid := some e.streamSid }
  let s2 :=
    if truthyStr s1.call_sid then s1
    else
      let cs := pyOr e.callSid s1.stream_sid
      let phone :=
        match cs with
        | some c =>
            match p c with
            | some ph => ph
            | none => s1.caller_phone
        | none => s1.caller_phone
      { s1 with call_sid := cs, caller_phone := phone }
  { s2 with latest_media_timestamp := 0, last_assistant_item := none,
            response_start_timestamp_twilio := none }

/-- `BUFFER_SIZE = 20 * 160` (deepgram_demo.py line 271): 0.4 seconds of 8 kHz audio. -/
def BUFFER_SIZE : Nat := 20 * 160

/-- The `while len(inbuffer) >= BUFFER_SIZE` loop of `receive_from_twilio`
(deepgram_demo.py lines 303-306): repeatedly split off `BUFFER_SIZE`-byte
frames, returning the emitted frames in order and the remaining buffer. -/
def drainFrames (buf : List Nat) : List (List Nat) × List Nat :=
  if _h : BUFFER_SIZE ≤ buf.length then
    (buf.take BUFFER_SIZE :: (drainFrames (buf.drop BUFFER_SIZE)).1,
     (drainFrames (buf.drop BUFFER_SIZE)).2)
  else
    ([], buf)
termination_by buf.length
decreasing_by
  simp only [List.length_drop]
  have hb : 0 < BUFFER_SIZE := by decide
  omega

/-- Appending a mark name to `connection_state["mark_queue"]`
(deepgram_demo.py line 505). -/
def mark_queue_push (q : List String) (name : String) : List String :=
  q ++ [name]

/-- The Twilio `mark` acknowledgement handler on the queue
(deepgram_demo.py lines 311-312): `if connection_state["mark_queue"]:
connection_state["mark_queue"].pop(0)` — pop the front, no-op when empty. -/
def mark_queue_ack (q : List String) : List String :=
  if q.isEmpty then q else q.tail

/-- A parsed control message from the Twilio socket, as dispatched by
`receive_from_twilio` on `data["event"]`.  `parseFail` models a text message on
which `json.loads` raises; `media` carries the parsed timestamp, the optional
`track` field, and the base64-decoded payload bytes. -/
inductive TwMsg
  | parseFail
  | media (timestamp : Int) (track : Option String) (chunk : List Nat)
  | startEv (e : StartEvent)
  | markEv
  | stopEv
  | otherEvent
deriving DecidableEq

/-- The outcome of one `await asyncio.wait_for(websocket.receive_text(), timeout=5.0)`
in `receive_from_twilio`: either a message arrived in time, or the 5-second
timeout fired and the liveness probe `await websocket.receive_text()` either
returned a text (`some`) or raised (`none`). -/
inductive TwRecv
  | msg (m : TwMsg)
  | timeout (probe : Option String)
deriving DecidableEq

/-- Whether a loop iteration falls through to the next receive or leaves the loop. -/
inductive LoopCtl
  | cont
  | brk
deriving DecidableEq

/-- The state visible to the telephony-inbound loop: the shared
`connection_state` plus the local `inbuffer` byte buffer of `receive_from_twilio`. -/
structure TwLoopState where
  conn : ConnState
  inbuffer : List Nat
deriving DecidableEq

/-- The pre-loop block of `receive_from_twilio` (deepgram_demo.py lines 274-284):
if `start_data` holds a start event, record its stream sid and zero the media
timestamp. -/
def receive_from_twilio_init (s : ConnState) : ConnState :=
  match s.start_data with
  | some (StartData.startEv e) =>
      { s with stream_sid := some e.streamSid, latest_media_timestamp := 0 }
  | _ => s

/-- One iteration of the `receive_from_twilio` loop (deepgram_demo.py lines
287-324).  A JSON parse failure escapes the inner `except asyncio.TimeoutError`
handler and is caught by the generic `except Exception` at the bottom of the
function, which sets `connection_active` to false and ends the loop.  On a
timeout, the probe text is bound to `pong` and never inspected; a probe failure
marks the connection closed. -/
def receive_from_twilio_step (p : String → Option String) (st : TwLoopState) (r : TwRecv) :
    TwLoopState × LoopCtl :=
  match r with
  | TwRecv.msg TwMsg.parseFail =>
      ({ st with conn := { st.conn with connection_active := false } }, LoopCtl.brk)
  | TwRecv.msg (TwMsg.media ts track chunk) =>
      if track = some "inbound" then
        ({ conn := { st.conn with
              latest_media_timestamp := ts,
              audio_queue := st.conn.audio_queue ++ (drainFrames (st.inbuffer ++ chunk)).1 },
           inbuffer := (drainFrames (st.inbuffer ++ chunk)).2 }, LoopCtl.cont)
      else
        ({ st with conn := { st.conn with latest_media_timestamp := ts } }, LoopCtl.cont)
  | TwRecv.msg (TwMsg.startEv e) =>
      ({ st with conn := handle_start_event p e st.conn }, LoopCtl.cont)
  | TwRecv.msg TwMsg.markEv =>
      ({ st with conn := { st.conn with mark_queue := mark_queue_ack st.conn.mark_queue } },
       LoopCtl.cont)
  | TwRecv.msg TwMsg.stopEv =>
      ({ st with conn := { st.conn with connection_active := false } }, LoopCtl.brk)
  | TwRecv.msg TwMsg.otherEvent => (st, LoopCtl.cont)
  | TwRecv.timeout (some _pong) => (st, LoopCtl.cont)
  | TwRecv.timeout none =>
      ({ st with conn := { st.conn with connection_active := false } }, LoopCtl.brk)

/-- The possible fates of the liveness probe `pong = await websocket.receive_text()`
(deepgram_demo.py line 320).  The call is a bare receive with no
`asyncio.wait_for` around it, so it has no timeout of its own: it either
returns a text, raises (connection closed or errored), or — when the peer
stays silent with the connection open — never completes at all. -/
inductive ProbeResult
  | received (text : String)
  | raised
  | blocked
deriving DecidableEq

/-- The `except asyncio.TimeoutError` handler of `receive_from_twilio`
(deepgram_demo.py lines 318-324) as a partial transition: `some` is the state
and loop control produced when the probe completes, and `none` models the
probe never completing — the bare `receive_text` has no timeout, so when no
message and no error arrive the iteration blocks indefinitely and no further
transition of the loop occurs. -/
def twilio_timeout_handler (st : TwLoopState) : ProbeResult → Option (TwLoopState × LoopCtl)
  | ProbeResult.received _pong => some (st, LoopCtl.cont)
  | ProbeResult.raised =>
      some ({ st with conn := { st.conn with connection_active := false } }, LoopCtl.brk)
  | ProbeResult.blocked => none

/-- Feeding a sequence of inbound-track media chunks through successive
iterations of the telephony-inbound loop. -/
def feed_media (p : String → Option String) : TwLoopState → List (List Nat) → TwLoopState
  | st, [] => st
  | st, chunk :: rest =>
      feed_media p
        (receive_from_twilio_step p st (TwRecv.msg (TwMsg.media 0 (some "inbound") chunk))).1
        rest

/-- The pure framer computation performed by the media branch across a sequence
of chunks: frames emitted so far and the carried buffer. -/
def framer_run_from : List Nat → List (List Nat) → List (List Nat) × List Nat
  | buf, [] => ([], buf)
  | buf, chunk :: rest =>
      ((drainFrames (buf ++ chunk)).1 ++ (framer_run_from (drainFrames (buf ++ chunk)).2 rest).1,
       (framer_run_from (drainFrames (buf ++ chunk)).2 rest).2)

/-- A message from the Deepgram agent socket, as dispatched by
`receive_from_deepgram`.  `textParseFail` models a text on which `json.loads`
raises (caught locally, logged and dropped); `textNoType` models valid JSON
without a "type" key, on which `event.lower()` raises `AttributeError`, caught
by the function's generic handler (fatal).  Binary frames carry raw mulaw bytes. -/
inductive DgMsg
  | textParseFail
  | textNoType
  | conversationText (role : Option String) (content : Option String) (item_id : Option String)
  | functionCall (func_name : Option String) (pname : Option String) (pemail : Option String)
  | userStartedSpeaking
  | otherEvent (ty : String)
  | binary (payload : List Nat)
deriving DecidableEq

/-- A message emitted by the relay while handling one agent-socket message:
`truncateMsg` goes to the Deepgram socket; `clearMsg`, `mediaMsg` and `markMsg`
go to the Twilio socket; `registryAdd` is an `connections.add_message` call. -/
inductive RelayOut
  | truncateMsg (item_id : String) (audio_end_ms : Int)
  | clearMsg (streamSid : String)
  | mediaMsg (streamSid : String) (payload : List Nat)
  | markMsg (streamSid : String)
  | registryAdd (call_sid : Option String) (role : String) (content : String)
deriving DecidableEq

/-- `send_mark` (deepgram_demo.py lines 490-505): when a stream sid is set (and
truthy), send one mark message and append "responsePart" to the mark queue. -/
def send_mark (s : ConnState) : ConnState × List RelayOut :=
  if truthyStr s.stream_sid = true then
    ({ s with mark_queue := mark_queue_push s.mark_queue "responsePart" },
     [RelayOut.markMsg (s.stream_sid.getD "")])
  else
    (s, [])

/-- One iteration of the `receive_from_deepgram` loop (deepgram_demo.py lines
362-453): the new state, the messages sent, and whether the loop continues. -/
def receive_from_deepgram_step (s : ConnState) (m : DgMsg) :
    ConnState × List RelayOut × LoopCtl :=
  match m with
  | DgMsg.textParseFail => (s, [], LoopCtl.cont)
  | DgMsg.textNoType => ({ s with connection_active := false }, [], LoopCtl.brk)
  | DgMsg.conversationText role content item_id =>
      if truthyStr role = true ∧ truthyStr content = true then
        let out := [RelayOut.registryAdd s.call_sid (role.getD "") (content.getD "")]
        if role = some "assistant" then
          let s1 := { s with last_assistant_item := item_id }
          let s2 :=
            if s1.response_start_timestamp_twilio = none then
              { s1 with response_start_timestamp_twilio := some s.latest_media_timestamp }
            else s1
          (s2, out, LoopCtl.cont)
        else (s, out, LoopCtl.cont)
      else (s, [], LoopCtl.cont)
  | DgMsg.functionCall func_name pname pemail =>
      if func_name = some "store_contact_info" then
        (s, [RelayOut.registryAdd s.call_sid "assistant"
              ("Captured via function: name=" ++ pyShowOpt pname ++ ", email="
                ++ pemail.getD "")], LoopCtl.cont)
      else (s, [], LoopCtl.cont)
  | DgMsg.userStartedSpeaking =>
      let s1 := { s with speech_started := true }
      if truthyStr s1.stream_sid = true ∧ truthyStr s1.last_assistant_item = true
          ∧ s1.response_start_timestamp_twilio ≠ none then
        ({ s1 with mark_queue := [], last_assistant_item := none,
                   response_start_timestamp_twilio := none },
         [RelayOut.truncateMsg (s1.last_assistant_item.getD "")
            (s1.latest_media_timestamp - s1.response_start_timestamp_twilio.getD 0),
          RelayOut.clearMsg (s1.stream_sid.getD "")],
         LoopCtl.cont)
      else (s1, [], LoopCtl.cont)
  | DgMsg.otherEvent _ty => (s, [], LoopCtl.cont)
  | DgMsg.binary payload =>
      if truthyStr s.stream_sid = true then
        ((send_mark { s with speech_started := false }).1,
         RelayOut.mediaMsg (s.stream_sid.getD "") payload
           :: (send_mark { s with speech_started := false }).2,
         LoopCtl.cont)
      else (s, [], LoopCtl.cont)

/-- The outcome of one iteration of the Deepgram connection attempt loop in
`handle_media_stream`: the `async with websockets.connect` body either runs to
its `break` (success), or raises `InvalidHandshake` from the connect call,
`ConnectionClosed`, `asyncio.TimeoutError` from the 5-second wait on
Deepgram's first response in `initialize_deepgram_session`, or some other
exception. -/
inductive AttemptResult
  | success
  | invalidHandshake
  | connectionClosed
  | timeoutError
  | otherException
deriving DecidableEq

/-- Observable trace of the connection attempt loop: number of attempts made,
the `asyncio.sleep` delays performed between attempts (in seconds), whether a
connection succeeded, whether the three relay tasks were started, and whether
`cleanup_connection` ran in the `finally` clause. -/
structure RetryTrace where
  attemptsMade : Nat
  delays : List Nat
  succeeded : Bool
  loopsStarted : Bool
  cleanedUp : Bool
deriving DecidableEq

/-- `max_retries = 3` (deepgram_demo.py line 102). -/
def max_retries : Nat := 3

/-- The `for attempt in range(max_retries)` loop of `handle_media_stream`
(deepgram_demo.py lines 104-161), over the list of remaining attempt indices.
Only the `InvalidHandshake` handler sleeps (`retry_delay`, doubling); the
`ConnectionClosed` and generic `Exception` handlers just log, so the loop moves
straight to the next attempt.  The `finally` clause runs cleanup and leaves the
loop when `attempt == max_retries - 1` or `connection_active` is false
(`active_after` gives `connection_active` once the tasks of a successful
attempt finish; on failed attempts it is still true). -/
def handle_attempts (outcome_of : Nat → AttemptResult) (active_after : Bool) :
    List Nat → Nat → List Nat → RetryTrace
  | [], _retry_delay, delays =>
      { attemptsMade := max_retries, delays := delays, succeeded := false,
        loopsStarted := false, cleanedUp := true }
  | attempt :: rest, retry_delay, delays =>
      match outcome_of attempt with
      | AttemptResult.success =>
          { attemptsMade := attempt + 1, delays := delays, succeeded := true,
            loopsStarted := true,
            cleanedUp := (attempt == max_retries - 1) || !active_after }
      | AttemptResult.invalidHandshake =>
          if attempt < max_retries - 1 then
            handle_attempts outcome_of active_after rest (retry_delay * 2)
              (delays ++ [retry_delay])
          else
            { attemptsMade := attempt + 1, delays := delays, succeeded := false,
              loopsStarted := false, cleanedUp := true }
      | _ =>
          if attempt == max_retries - 1 then
            { attemptsMade := attempt + 1, delays := delays, succeeded := false,
              loopsStarted := false, cleanedUp := true }
          else
            handle_attempts outcome_of active_after rest retry_delay delays

/-- The whole connection attempt loop with its initial `retry_delay = 1`. -/
def handshake_retry_model (outcome_of : Nat → AttemptResult) (active_after : Bool) : RetryTrace :=
  handle_attempts outcome_of active_after (List.range max_retries) 1 []

/-- `handle_media_stream` up to the concurrent loops (deepgram_demo.py lines
80-161): build the initial state, run `initialize_connection_state` on the
first received message, then run the Deepgram connection attempt loop.  The
attempt loop runs regardless of how the initialization step went. -/
def handle_media_stream_model (p : String → Option String) (received : Option StartData)
    (outcome_of : Nat → AttemptResult) (active_after : Bool) : ConnState × RetryTrace :=
  (initialize_connection_state p received init_connection_state,
   handshake_retry_model outcome_of active_after)

/-- An operation on the mark queue: a `send_mark` append or an inbound Twilio
`mark` acknowledgement. -/
inductive MarkOp
  | push (name : String)
  | ack
deriving DecidableEq

/-- Run an interleaving of mark-queue operations, tracking the queue and the
ordered log of popped entries. -/
def mark_run : List String → List String → List MarkOp → List String × List String
  | q, popped, [] => (q, popped)
  | q, popped, MarkOp.push n :: ops => mark_run (mark_queue_push q n) popped ops
  | q, popped, MarkOp.ack :: ops => mark_run (mark_queue_ack q) (popped ++ q.take 1) ops

/-- The names pushed by an operation sequence, in order. -/
def pushed_names : List MarkOp → List String
  | [] => []
  | MarkOp.push n :: ops => n :: pushed_names ops
  | MarkOp.ack :: ops => pushed_names ops

/-- The number of acknowledgement operations in a sequence. -/
def ack_count : List MarkOp → Nat
  | [] => 0
  | MarkOp.push _ :: ops => ack_count ops
  | MarkOp.ack :: ops => ack_count ops + 1

/-- Validity of an interleaving relative to a starting queue size: every
acknowledgement finds a nonempty queue (acks only acknowledge marks already
sent). -/
def mark_ops_valid : Nat → List MarkOp → Bool
  | _, [] => true
  | k, MarkOp.push _ :: ops => mark_ops_valid (k + 1) ops
  | k, MarkOp.ack :: ops => decide (0 < k) && mark_ops_valid (k - 1) ops

/-- A phone store with no entries, for concrete instantiations. -/
def phone_store_empty : String → Option String := fun _ => none

/-- The telephony-loop state at the start of a call: fresh connection state and
an empty byte buffer. -/
def tw_state0 : TwLoopState :=
  { conn := init_connection_state, inbuffer := [] }

/-- A mid-utterance relay state: stream started, assistant item "abc" playing
since media timestamp 100, media clock now at 650 (the spec's barge-in example). -/
def s_c1 : ConnState :=
  { init_connection_state with
    stream_sid := some "MZ1"
    latest_media_timestamp := 650
    last_assistant_item := some "abc"
    response_start_timestamp_twilio := some 100 }

/-- A relay state with an in-flight assistant utterance "a" started at media
timestamp 100. -/
def s_c8 : ConnState :=
  { init_connection_state with
    stream_sid := some "MZ1"
    last_assistant_item := some "a"
    response_start_timestamp_twilio := some 100 }

/-- Attempt outcomes: the first two connection attempts time out waiting for
Deepgram's first response, the third succeeds. -/
def outcomes_timeout_twice_then_success : Nat → AttemptResult := fun n =>
  if n < 2 then AttemptResult.timeoutError else AttemptResult.success

/-- Attempt outcomes: the first two connect calls fail their websocket
handshake, the third succeeds. -/
def outcomes_handshake_fail_twice : Nat → AttemptResult := fun n =>
  if n < 2 then AttemptResult.invalidHandshake else AttemptResult.success

/-- Attempt outcomes: every attempt times out waiting for the first response. -/
def outcomes_timeout_always : Nat → AttemptResult := fun _ => AttemptResult.timeoutError

/-- Attempt outcomes: the first attempt succeeds. -/
def outcomes_first_success : Nat → AttemptResult := fun _ => AttemptResult.success

/-- A concrete interleaving of mark sends and acknowledgements. -/
def ops_c7 : List MarkOp :=
  [MarkOp.push "responsePart", MarkOp.push "responsePart", MarkOp.ack,
   MarkOp.push "responsePart", MarkOp.ack]

/-! ## Lemmas about the audio framer -/

theorem drainFrames_join (buf : List Nat) :
    (drainFrames buf).1.flatten ++ (drainFrames buf).2 = buf := by
  rw [drainFrames]
  split
  case isTrue h =>
    have ih := drainFrames_join (buf.drop BUFFER_SIZE)
    simp only [List.flatten_cons, List.append_assoc, ih, List.take_append_drop]
  case isFalse h => simp
termination_by buf.length
decreasing_by
  simp only [List.length_drop]
  have hb : 0 < BUFFER_SIZE := by decide
  omega

theorem drainFrames_rest_lt (buf : List Nat) :
    (drainFrames buf).2.length < BUFFER_SIZE := by
  rw [drainFrames]
  split
  case isTrue h => exact drainFrames_rest_lt (buf.drop BUFFER_SIZE)
  case isFalse h => simp only []; omega
termination_by buf.length
decreasing_by
  simp only [List.length_drop]
  have hb : 0 < BUFFER_SIZE := by decide
  omega

theorem drainFrames_frame_len (buf : List Nat) :
    ∀ f ∈ (drainFrames buf).1, f.length = BUFFER_SIZE := by
  rw [drainFrames]
  split
  case isTrue h =>
    intro f hf
    rcases List.mem_cons.mp hf with hf | hf
    · subst hf
      exact List.length_take_of_le h
    · exact drainFrames_frame_len (buf.drop BUFFER_SIZE) f hf
  case isFalse h => simp
termination_by buf.length
decreasing_by
  simp only [List.length_drop]
  have hb : 0 < BUFFER_SIZE := by decide
  omega

theorem framer_run_from_join (chunks : List (List Nat)) :
    ∀ buf : List Nat,
      (framer_run_from buf chunks).1.flatten ++ (framer_run_from buf chunks).2
        = buf ++ chunks.flatten := by
  induction chunks with
  | nil => intro buf; simp [framer_run_from]
  | cons c rest ih =>
      intro buf
      have hd := drainFrames_join (buf ++ c)
      calc (framer_run_from buf (c :: rest)).1.flatten ++ (framer_run_from buf (c :: rest)).2
          = (drainFrames (buf ++ c)).1.flatten
              ++ ((framer_run_from (drainFrames (buf ++ c)).2 rest).1.flatten
                  ++ (framer_run_from (drainFrames (buf ++ c)).2 rest).2) := by
            simp [framer_run_from, List.flatten_append, List.append_assoc]
        _ = (drainFrames (buf ++ c)).1.flatten ++ ((drainFrames (buf ++ c)).2 ++ rest.flatten) := by
            rw [ih]
        _ = ((drainFrames (buf ++ c)).1.flatten ++ (drainFrames (buf ++ c)).2) ++ rest.flatten := by
            rw [List.append_assoc]
        _ = (buf ++ c) ++ rest.flatten := by rw [hd]
        _ = buf ++ (c :: rest).flatten := by simp

theorem framer_run_from_frame_len (chunks : List (List Nat)) :
    ∀ (buf : List Nat) (f : List Nat), f ∈ (framer_run_from buf chunks).1 →
      f.length = BUFFER_SIZE := by
  induction chunks with
  | nil => intro buf f hf; simp [framer_run_from] at hf
  | cons c rest ih =>
      intro buf f hf
      simp only [framer_run_from, List.mem_append] at hf
      rcases hf with hf | hf
      · exact drainFrames_frame_len (buf ++ c) f hf
      · exact ih (drainFrames (buf ++ c)).2 f hf

theorem framer_run_from_rest_lt (chunks : List (List Nat)) :
    ∀ buf : List Nat, buf.length < BUFFER_SIZE →
      (framer_run_from buf chunks).2.length < BUFFER_SIZE := by
  induction chunks with
  | nil => intro buf hb; simpa [framer_run_from] using hb
  | cons c rest ih =>
      intro buf _hb
      simp only [framer_run_from]
      exact ih (drainFrames (buf ++ c)).2 (drainFrames_rest_lt (buf ++ c))

theorem feed_media_framer (p : String → Option String) (chunks : List (List Nat)) :
    ∀ st : TwLoopState,
      (feed_media p st chunks).conn.audio_queue
          = st.conn.audio_queue ++ (framer_run_from st.inbuffer chunks).1
        ∧ (feed_media p st chunks).inbuffer = (framer_run_from st.inbuffer chunks).2 := by
  induction chunks with
  | nil => intro st; simp [feed_media, framer_run_from]
  | cons c rest ih =>
      intro st
      have hstep := ih
        ({ conn := { st.conn with
              latest_media_timestamp := 0,
              audio_queue := st.conn.audio_queue ++ (drainFrames (st.inbuffer ++ c)).1 },
           inbuffer := (drainFrames (st.inbuffer ++ c)).2 } : TwLoopState)
      constructor
      · calc (feed_media p st (c :: rest)).conn.audio_queue
            = (st.conn.audio_queue ++ (drainFrames (st.inbuffer ++ c)).1)
                ++ (framer_run_from (drainFrames (st.inbuffer ++ c)).2 rest).1 := by
              simpa [feed_media, receive_from_twilio_step] using hstep.1
          _ = st.conn.audio_queue ++ (framer_run_from st.inbuffer (c :: rest)).1 := by
              simp [framer_run_from, List.append_assoc]
      · calc (feed_media p st (c :: rest)).inbuffer
            = (framer_run_from (drainFrames (st.inbuffer ++ c)).2 rest).2 := by
              simpa [feed_media, receive_from_twilio_step] using hstep.2
          _ = (framer_run_from st.inbuffer (c :: rest)).2 := by
              simp [framer_run_from]

theorem join_length_mod_zero (q : List (List Nat))
    (h : ∀ f ∈ q, f.length = BUFFER_SIZE) : q.flatten.length % BUFFER_SIZE = 0 := by
  induction q with
  | nil => simp
  | cons a t ih =>
      have ha : a.length = BUFFER_SIZE := h a (List.mem_cons_self a t)
      have ht : ∀ f ∈ t, f.length = BUFFER_SIZE := fun f hf => h f (List.mem_cons_of_mem a hf)
      simp only [List.flatten_cons, List.length_append, ha]
      rw [Nat.add_mod_left]
      exact ih ht

theorem split_at_frame_multiple (J R T : List Nat) (h : J ++ R = T)
    (hmod : J.length % BUFFER_SIZE = 0) (hlt : R.length < BUFFER_SIZE) :
    J = T.take (BUFFER_SIZE * (T.length / BUFFER_SIZE))
      ∧ R = T.drop (BUFFER_SIZE * (T.length / BUFFER_SIZE)) := by
  have hB : 0 < BUFFER_SIZE := by decide
  have hk : BUFFER_SIZE * (J.length / BUFFER_SIZE) = J.length :=
    Nat.mul_div_cancel' (Nat.dvd_of_mod_eq_zero hmod)
  have hT : T.length = J.length + R.length := by
    rw [← h, List.length_append]
  have hdiv : T.length / BUFFER_SIZE = J.length / BUFFER_SIZE := by
    rw [hT]
    conv_lhs => rw [← hk]
    rw [Nat.mul_add_div hB, Nat.div_eq_of_lt hlt, Nat.add_zero]
  have hlen : BUFFER_SIZE * (T.length / BUFFER_SIZE) = J.length := by rw [hdiv, hk]
  constructor
  · rw [hlen, ← h, List.take_left]
  · rw [hlen, ← h, List.drop_left]

/-! ## Lemmas about the mark queue -/

theorem mark_run_fifo_aux (ops : List MarkOp) :
    ∀ (q popped : List String), mark_ops_valid q.length ops = true →
      mark_run q popped ops
        = ((q ++ pushed_names ops).drop (ack_count ops),
           popped ++ (q ++ pushed_names ops).take (ack_count ops)) := by
  induction ops with
  | nil => intro q popped _h; simp [mark_run, pushed_names, ack_count]
  | cons op rest ih =>
      intro q popped hv
      cases op with
      | push n =>
          have hv1 : mark_ops_valid (mark_queue_push q n).length rest = true := by
            simpa [mark_queue_push, mark_ops_valid] using hv
          calc mark_run q popped (MarkOp.push n :: rest)
              = mark_run (mark_queue_push q n) popped rest := by rw [mark_run]
            _ = (((q ++ [n]) ++ pushed_names rest).drop (ack_count rest),
                 popped ++ ((q ++ [n]) ++ pushed_names rest).take (ack_count rest)) := by
                rw [ih (mark_queue_push q n) popped hv1]; rfl
            _ = ((q ++ pushed_names (MarkOp.push n :: rest)).drop (ack_count (MarkOp.push n :: rest)),
                 popped ++ (q ++ pushed_names (MarkOp.push n :: rest)).take
                   (ack_count (MarkOp.push n :: rest))) := by
                simp [pushed_names, ack_count, List.append_assoc]
      | ack =>
          have hpos : 0 < q.length ∧ mark_ops_valid (q.length - 1) rest = true := by
            simpa [mark_ops_valid] using hv
          cases q with
          | nil => exact absurd hpos.1 (by simp)
          | cons a t =>
              have hv1 : mark_ops_valid t.length rest = true := by
                simpa using hpos.2
              calc mark_run (a :: t) popped (MarkOp.ack :: rest)
                  = mark_run t (popped ++ [a]) rest := by
                    simp [mark_run, mark_queue_ack]
                _ = ((t ++ pushed_names rest).drop (ack_count rest),
                     (popped ++ [a]) ++ (t ++ pushed_names rest).take (ack_count rest)) := by
                    rw [ih t (popped ++ [a]) hv1]
                _ = (((a :: t) ++ pushed_names (MarkOp.ack :: rest)).drop
                       (ack_count (MarkOp.ack :: rest)),
                     popped ++ ((a :: t) ++ pushed_names (MarkOp.ack :: rest)).take
                       (ack_count (MarkOp.ack :: rest))) := by
                    simp [pushed_names, ack_count, List.take_succ_cons, List.drop_succ_cons]

/-! ## Claim theorems -/

/-- C1: on a `UserStartedSpeaking` event from the agent leg with stream sid,
last assistant item and response start timestamp all set (truthy), the relay
emits exactly one `conversation.item.truncate` with the stored item id and
`audio_end_ms = latest_media_timestamp - response_start_timestamp_twilio`,
followed by exactly one `clear` message to the telephony socket, and resets
`mark_queue` to empty and both utterance fields to unset; when
`last_assistant_item` is unset, no truncate and no clear is emitted and the
fields are unchanged (only `speech_started` is set). -/
theorem C1_barge_in_truncate_and_reset (s s2 : ConnState) (sid item : String) (t0 : Int)
    (h1 : s.stream_sid = some sid) (h2 : sid ≠ "")
    (h3 : s.last_assistant_item = some item) (h4 : item ≠ "")
    (h5 : s.response_start_timestamp_twilio = some t0)
    (h6 : s2.last_assistant_item = none) :
    receive_from_deepgram_step s DgMsg.userStartedSpeaking =
      ({ s with speech_started := true, mark_queue := [], last_assistant_item := none,
                response_start_timestamp_twilio := none },
       [RelayOut.truncateMsg item (s.latest_media_timestamp - t0), RelayOut.clearMsg sid],
       LoopCtl.cont)
    ∧ receive_from_deepgram_step s2 DgMsg.userStartedSpeaking =
        ({ s2 with speech_started := true }, [], LoopCtl.cont) := by
  constructor
  · simp [receive_from_deepgram_step, h1, h3, h5, truthyStr, h2, h4]
  · simp [receive_from_deepgram_step, h6, truthyStr]

/-- Witness for C1 at the spec's concrete barge-in example: item "abc" started
at media timestamp 100, media clock at 650, truncate at 550; and a fresh state
with no assistant item in flight emits nothing. -/
theorem C1_barge_in_truncate_and_reset_witness :
    (s_c1.stream_sid = some "MZ1" ∧ s_c1.last_assistant_item = some "abc"
      ∧ s_c1.response_start_timestamp_twilio = some 100
      ∧ init_connection_state.last_assistant_item = none)
    ∧ (receive_from_deepgram_step s_c1 DgMsg.userStartedSpeaking =
        ({ s_c1 with speech_started := true, mark_queue := [], last_assistant_item := none,
                     response_start_timestamp_twilio := none },
         [RelayOut.truncateMsg "abc" (s_c1.latest_media_timestamp - 100),
          RelayOut.clearMsg "MZ1"],
         LoopCtl.cont)
       ∧ receive_from_deepgram_step init_connection_state DgMsg.userStartedSpeaking =
           ({ init_connection_state with speech_started := true }, [], LoopCtl.cont)) :=
  ⟨⟨rfl, rfl, rfl, rfl⟩,
   C1_barge_in_truncate_and_reset s_c1 init_connection_state "MZ1" "abc" 100
     rfl (by decide) rfl (by decide) rfl rfl⟩

/-- C2: over any sequence of inbound-track media chunks fed to the telephony
loop from a fresh state, the concatenation of the frames pushed into
`audio_queue` is the concatenation of the input bytes truncated to the largest
multiple of `BUFFER_SIZE` (3200 bytes), every emitted frame is exactly
`BUFFER_SIZE` bytes, the remainder below one frame is retained in the local
buffer (never emitted, no flush at stream end), and the retained remainder is
always shorter than one frame. -/
theorem C2_audio_framer (p : String → Option String) (chunks : List (List Nat)) :
    (feed_media p tw_state0 chunks).conn.audio_queue.flatten
        = chunks.flatten.take (BUFFER_SIZE * (chunks.flatten.length / BUFFER_SIZE))
    ∧ (feed_media p tw_state0 chunks).conn.audio_queue.all
        (fun f => f.length == BUFFER_SIZE) = true
    ∧ (feed_media p tw_state0 chunks).inbuffer
        = chunks.flatten.drop (BUFFER_SIZE * (chunks.flatten.length / BUFFER_SIZE))
    ∧ (feed_media p tw_state0 chunks).inbuffer.length < BUFFER_SIZE := by
  have hfm := feed_media_framer p chunks tw_state0
  have hq : (feed_media p tw_state0 chunks).conn.audio_queue
      = (framer_run_from [] chunks).1 := by
    simpa [tw_state0, init_connection_state] using hfm.1
  have hb : (feed_media p tw_state0 chunks).inbuffer = (framer_run_from [] chunks).2 := by
    simpa [tw_state0] using hfm.2
  have hjoin : (framer_run_from [] chunks).1.flatten ++ (framer_run_from [] chunks).2
      = chunks.flatten := by
    simpa using framer_run_from_join chunks []
  have hlen : ∀ f ∈ (framer_run_from [] chunks).1, f.length = BUFFER_SIZE :=
    fun f hf => framer_run_from_frame_len chunks [] f hf
  have hltB : (framer_run_from [] chunks).2.length < BUFFER_SIZE :=
    framer_run_from_rest_lt chunks [] (by decide)
  have hmod : (framer_run_from [] chunks).1.flatten.length % BUFFER_SIZE = 0 :=
    join_length_mod_zero (framer_run_from [] chunks).1 hlen
  have hsplit := split_at_frame_multiple (framer_run_from [] chunks).1.flatten
    (framer_run_from [] chunks).2 chunks.flatten hjoin hmod hltB
  refine ⟨by rw [hq]; exact hsplit.1, ?_, by rw [hb]; exact hsplit.2, by rw [hb]; exact hltB⟩
  rw [hq, List.all_eq_true]
  intro f hf
  simpa using hlen f hf

/-- C3 counterexample: a text message from the telephony socket that fails JSON
parsing is not merely dropped — it reaches the generic exception handler of
`receive_from_twilio`, which sets `connection_active` to false and leaves the
loop, so the malformed message is fatal to the call session. -/
theorem C3_malformed_twilio_fatal_counterexample :
    init_connection_state.connection_active = true
    ∧ (receive_from_twilio_step phone_store_empty tw_state0
        (TwRecv.msg TwMsg.parseFail)).1.conn.connection_active = false
    ∧ (receive_from_twilio_step phone_store_empty tw_state0
        (TwRecv.msg TwMsg.parseFail)).2 = LoopCtl.brk := by
  decide

/-- C3 amended: only on the agent leg is a JSON parse failure logged and
dropped with the loop continuing and the state untouched; on the telephony leg
a parse failure escapes to the generic handler, which sets `connection_active`
to false and exits the loop (fatal to the call session). -/
theorem C3_malformed_message_handling (s : ConnState) (p : String → Option String)
    (st : TwLoopState) :
    receive_from_deepgram_step s DgMsg.textParseFail = (s, [], LoopCtl.cont)
    ∧ receive_from_twilio_step p st (TwRecv.msg TwMsg.parseFail)
        = ({ st with conn := { st.conn with connection_active := false } }, LoopCtl.brk) :=
  ⟨rfl, rfl⟩

/-- C4 counterexample: a client whose first two attempts fail by handshake
acknowledgement timeout (no response within the 5-second bound, raising
`asyncio.TimeoutError`) and whose third succeeds makes 3 attempts but performs
no backoff sleeps at all — it does not wait at least 1 second and then at least
2 seconds as the claim requires. -/
theorem C4_backoff_counterexample :
    (handshake_retry_model outcomes_timeout_twice_then_success true).attemptsMade = 3
    ∧ (handshake_retry_model outcomes_timeout_twice_then_success true).succeeded = true
    ∧ (handshake_retry_model outcomes_timeout_twice_then_success true).delays = [] := by
  decide

/-- C4 amended: the client makes up to 3 total connection attempts and after
the third failure abandons the call and runs cleanup, proceeding normally if
the third attempt succeeds; the exponential backoff (1 s then 2 s) is applied
only when the websocket connect itself fails its handshake
(`InvalidHandshake`); an acknowledgement timeout retries immediately with no
delay. -/
theorem C4_retry_policy :
    (handshake_retry_model outcomes_handshake_fail_twice true).delays = [1, 2]
    ∧ (handshake_retry_model outcomes_handshake_fail_twice true).attemptsMade = 3
    ∧ (handshake_retry_model outcomes_handshake_fail_twice true).succeeded = true
    ∧ (handshake_retry_model outcomes_timeout_always true).attemptsMade = 3
    ∧ (handshake_retry_model outcomes_timeout_always true).succeeded = false
    ∧ (handshake_retry_model outcomes_timeout_always true).cleanedUp = true
    ∧ (handshake_retry_model outcomes_timeout_always true).delays = []
    ∧ (handshake_retry_model outcomes_timeout_twice_then_success true).succeeded = true
    ∧ (handshake_retry_model outcomes_timeout_twice_then_success true).delays = [] := by
  decide

/-- C5 counterexample: when no telephony stream-start message arrives within
the 5-second window (the initialization step takes its exception path), the
session is not treated as fatal — the agent connection attempt loop still runs
and, the first attempt succeeding, the three concurrent loops are started. -/
theorem C5_start_timeout_counterexample :
    (handle_media_stream_model phone_store_empty none outcomes_first_success true).2.loopsStarted
        = true
    ∧ (handle_media_stream_model phone_store_empty none outcomes_first_success
        true).2.succeeded = true
    ∧ (handle_media_stream_model phone_store_empty none outcomes_first_success
        true).1.start_data = none := by
  decide

/-- C5 amended: a stream-start timeout is logged and absorbed —
`caller_phone` becomes "Unknown Caller" and `start_data` becomes unset, the
agent connection is still attempted, on success the three loops start, and the
telephony loop's pre-loop block then leaves `stream_sid` unset. -/
theorem C5_start_timeout_proceeds (p : String → Option String) (s : ConnState) :
    initialize_connection_state p none s
        = { s with caller_phone := "Unknown Caller", start_data := none }
    ∧ (handle_media_stream_model p none outcomes_first_success true).2.loopsStarted = true
    ∧ (receive_from_twilio_init
        (handle_media_stream_model p none outcomes_first_success true).1).stream_sid = none :=
  ⟨rfl, rfl, rfl⟩

/-- C6 counterexample: the liveness probe is an unbounded receive, so the
claim's "second consecutive timeout" — the probe also failing to receive
within the 5-second bound — has no transition in the code: when the peer stays
silent with the connection open, the timeout handler never completes.  In
particular it does not produce the dead-connection transition the claim
requires (`connection_active` set to false and the loop exited). -/
theorem C6_unbounded_probe_counterexample :
    twilio_timeout_handler tw_state0 ProbeResult.blocked = none
    ∧ twilio_timeout_handler tw_state0 ProbeResult.blocked
        ≠ some ({ tw_state0 with
                    conn := { tw_state0.conn with connection_active := false } },
                LoopCtl.brk) := by
  decide

/-- C6 amended: on the telephony-inbound loop, a single 5-second receive
timeout triggers exactly one liveness probe attempt — a bare receive with no
timeout of its own.  If the probe raises (the connection is closed or
errored), the connection is treated as dead: `connection_active` is set to
false and the loop exits.  If the probe receives a message, the loop continues
with `connection_active` untouched (a single timeout alone is never fatal).
If the peer stays silent with the connection open, the probe never completes:
the loop blocks indefinitely instead of treating the second silent interval as
a dead connection. -/
theorem C6_timeout_probe_amended (p : String → Option String) (st : TwLoopState)
    (pong : String) :
    twilio_timeout_handler st ProbeResult.raised
        = some ({ st with conn := { st.conn with connection_active := false } }, LoopCtl.brk)
    ∧ twilio_timeout_handler st (ProbeResult.received pong) = some (st, LoopCtl.cont)
    ∧ twilio_timeout_handler st ProbeResult.blocked = none
    ∧ receive_from_twilio_step p st (TwRecv.timeout none)
        = ({ st with conn := { st.conn with connection_active := false } }, LoopCtl.brk)
    ∧ (receive_from_twilio_step p st (TwRecv.timeout (some pong))).2 = LoopCtl.cont
    ∧ (receive_from_twilio_step p st (TwRecv.timeout (some pong))).1.conn.connection_active
        = st.conn.connection_active :=
  ⟨rfl, rfl, rfl, rfl, rfl, rfl⟩

/-- C7: the mark queue is FIFO — for any interleaving of mark-message sends
(appending at the back) with inbound mark acknowledgements (popping at the
front), in which every acknowledgement finds a nonempty queue, the popped
entries are exactly the first `ack_count` appended entries in append order; and
an acknowledgement arriving at an empty queue pops nothing. -/
theorem C7_mark_queue_fifo (ops : List MarkOp) (h : mark_ops_valid 0 ops = true) :
    (mark_run [] [] ops).2 = (pushed_names ops).take (ack_count ops)
    ∧ (mark_run [] [] ops).1 = (pushed_names ops).drop (ack_count ops)
    ∧ mark_queue_ack ([] : List String) = [] := by
  have h0 := mark_run_fifo_aux ops [] [] (by simpa using h)
  rw [h0]
  simp [mark_queue_ack]

/-- Witness for C7 on a concrete interleaving of three sends and two
acknowledgements. -/
theorem C7_mark_queue_fifo_witness :
    mark_ops_valid 0 ops_c7 = true
    ∧ ((mark_run [] [] ops_c7).2 = (pushed_names ops_c7).take (ack_count ops_c7)
       ∧ (mark_run [] [] ops_c7).1 = (pushed_names ops_c7).drop (ack_count ops_c7)
       ∧ mark_queue_ack ([] : List String) = []) :=
  ⟨by decide, C7_mark_queue_fifo ops_c7 (by decide)⟩

/-- C8 counterexample: with an utterance in flight (item "a", start timestamp
100), an assistant conversation-text event carrying no `item_id` overwrites
`last_assistant_item` with `None` — clearing it — while leaving
`response_start_timestamp_twilio` set at 100, so the two fields are not always
cleared together. -/
theorem C8_clear_together_counterexample :
    s_c8.last_assistant_item = some "a"
    ∧ s_c8.response_start_timestamp_twilio = some 100
    ∧ (receive_from_deepgram_step s_c8
        (DgMsg.conversationText (some "assistant") (some "hi") none)).1.last_assistant_item
        = none
    ∧ (receive_from_deepgram_step s_c8
        (DgMsg.conversationText (some "assistant") (some "hi")
          none)).1.response_start_timestamp_twilio = some 100 := by
  decide

/-- C8 amended: `response_start_timestamp_twilio` is only assigned while unset
— once set, no agent-leg or telephony-leg event rewrites it to a different set
value (it is either preserved or cleared); barge-in (with an utterance in
flight) and a telephony start event clear `last_assistant_item` and
`response_start_timestamp_twilio` together; but an assistant conversation-text
event reassigns `last_assistant_item` to its `item_id` (clearing it when the
field is absent) without touching a set `response_start_timestamp_twilio`, and
no handler clears the fields on utterance completion. -/
theorem C8_timestamp_invariant (s : ConnState) (m : DgMsg) (p : String → Option String)
    (st : TwLoopState) (r : TwRecv) (e : StartEvent) (s1 : ConnState)
    (hd : s.response_start_timestamp_twilio ≠ none)
    (hb1 : truthyStr s1.stream_sid = true)
    (hb2 : truthyStr s1.last_assistant_item = true)
    (hb3 : s1.response_start_timestamp_twilio ≠ none) :
    ((receive_from_deepgram_step s m).1.response_start_timestamp_twilio
        = s.response_start_timestamp_twilio
      ∨ (receive_from_deepgram_step s m).1.response_start_timestamp_twilio = none)
    ∧ ((receive_from_twilio_step p st r).1.conn.response_start_timestamp_twilio
        = st.conn.response_start_timestamp_twilio
      ∨ (receive_from_twilio_step p st r).1.conn.response_start_timestamp_twilio = none)
    ∧ ((receive_from_deepgram_step s1 DgMsg.userStartedSpeaking).1.last_assistant_item = none
      ∧ (receive_from_deepgram_step s1
          DgMsg.userStartedSpeaking).1.response_start_timestamp_twilio = none)
    ∧ ((handle_start_event p e st.conn).last_assistant_item = none
      ∧ (handle_start_event p e st.conn).response_start_timestamp_twilio = none) := by
  refine ⟨?_, ?_, ?_, ?_⟩
  · cases m with
    | textParseFail => left; rfl
    | textNoType => left; rfl
    | conversationText role content item_id =>
        simp only [receive_from_deepgram_step]
        split
        · split
          · left; rfl
          · left; rfl
        · left; rfl
    | functionCall func_name pname pemail =>
        simp only [receive_from_deepgram_step]
        split
        · left; rfl
        · left; rfl
    | userStartedSpeaking =>
        simp only [receive_from_deepgram_step]
        split
        · right; rfl
        · left; rfl
    | otherEvent ty => left; rfl
    | binary payload =>
        simp only [receive_from_deepgram_step]
        split
        · left; simp [send_mark]; split <;> rfl
        · left; rfl
  · cases r with
    | msg m' =>
        cases m' with
        | parseFail => left; rfl
        | media ts track chunk =>
            simp only [receive_from_twilio_step]
            split
            · left; rfl
            · left; rfl
        | startEv e' =>
            right
            simp [receive_from_twilio_step, handle_start_event]
        | markEv => left; rfl
        | stopEv => left; rfl
        | otherEvent => left; rfl
    | timeout probe =>
        cases probe with
        | none => left; rfl
        | some pong => left; rfl
  · simp only [receive_from_deepgram_step]
    rw [if_pos]
    · exact ⟨rfl, rfl⟩
    · exact ⟨hb1, hb2, hb3⟩
  · simp [handle_start_event]

/-- Witness for C8 at concrete states: the mid-utterance state `s_c8`, an
unrelated agent event, a telephony mark acknowledgement, and a start event. -/
theorem C8_timestamp_invariant_witness :
    (s_c8.response_start_timestamp_twilio ≠ none
      ∧ truthyStr s_c8.stream_sid = true
      ∧ truthyStr s_c8.last_assistant_item = true)
    ∧ (((receive_from_deepgram_step s_c8 (DgMsg.otherEvent "Welcome")).1.response_start_timestamp_twilio
          = s_c8.response_start_timestamp_twilio
        ∨ (receive_from_deepgram_step s_c8
            (DgMsg.otherEvent "Welcome")).1.response_start_timestamp_twilio = none)
      ∧ (((receive_from_twilio_step phone_store_empty { conn := s_c8, inbuffer := [] }
            (TwRecv.msg TwMsg.markEv)).1.conn.response_start_timestamp_twilio
          = ({ conn := s_c8, inbuffer := [] } : TwLoopState).conn.response_start_timestamp_twilio)
        ∨ (receive_from_twilio_step phone_store_empty { conn := s_c8, inbuffer := [] }
            (TwRecv.msg TwMsg.markEv)).1.conn.response_start_timestamp_twilio = none)
      ∧ ((receive_from_deepgram_step s_c8 DgMsg.userStartedSpeaking).1.last_assistant_item = none
        ∧ (receive_from_deepgram_step s_c8
            DgMsg.userStartedSpeaking).1.response_start_timestamp_twilio = none)
      ∧ ((handle_start_event phone_store_empty { streamSid := "MZ2", callSid := none }
            ({ conn := s_c8, inbuffer := [] } : TwLoopState).conn).last_assistant_item = none
        ∧ (handle_start_event phone_store_empty { streamSid := "MZ2", callSid := none }
            ({ conn := s_c8, inbuffer := [] } : TwLoopState).conn).response_start_timestamp_twilio
            = none)) :=
  ⟨⟨by decide, by decide, by decide⟩,
   C8_timestamp_invariant s_c8 (DgMsg.otherEvent "Welcome") phone_store_empty
     { conn := s_c8, inbuffer := [] } (TwRecv.msg TwMsg.markEv)
     { streamSid := "MZ2", callSid := none } s_c8
     (by decide) (by decide) (by decide) (by decide)⟩

/-- C9: a binary audio frame from the agent leg received while `stream_sid` is
unset is silently dropped — no media message, no mark message, the mark queue
and the whole state unchanged, and the loop continues. -/
theorem C9_audio_dropped_without_stream (s : ConnState) (payload : List Nat)
    (h : s.stream_sid = none) :
    receive_from_deepgram_step s (DgMsg.binary payload) = (s, [], LoopCtl.cont) := by
  simp [receive_from_deepgram_step, h, truthyStr]

/-- Witness for C9: a fresh connection state (no start event processed) drops a
concrete binary frame. -/
theorem C9_audio_dropped_without_stream_witness :
    init_connection_state.stream_sid = none
    ∧ receive_from_deepgram_step init_connection_state (DgMsg.binary [0, 1, 2])
        = (init_connection_state, [], LoopCtl.cont) :=
  ⟨rfl, C9_audio_dropped_without_stream init_connection_state [0, 1, 2] rfl⟩

/-- C10: any text successfully received by the liveness probe after a telephony
receive timeout is discarded without being parsed or dispatched — the state is
completely unchanged (no timestamp update, no frame queued, no mark popped, no
stop handling) and the loop resumes normal receiving. -/
theorem C10_probe_message_discarded (p : String → Option String) (st : TwLoopState)
    (m : String) :
    receive_from_twilio_step p st (TwRecv.timeout (some m)) = (st, LoopCtl.cont) :=
  rfl
